import Mathlib

/-!
Shallow embedding of the GPS track-processing pipeline of the `tms-temp`
repository: geo primitives (`src/src/utils/geo.util.ts`), the per-device
Kalman smoother (`KalmanService`), the OSRM map-matching client
(`OsrmService.matchPath`) and the track-processor worker
(`src/src/workers/TrackProcessor.worker.ts`).

Numbers that are IEEE doubles in the TypeScript source are modelled as
rationals (`ℚ`); `Date` values are modelled by their epoch value in
milliseconds (`ℤ`, as returned by `Date.getTime()`).  The external
haversine distance (`@turf/turf`, re-exported by `calculateDistance`)
is a parameter of the processor, exactly as the worker imports it.
-/

namespace TMS

/-- A latitude/longitude pair (`Coord` in `geo.util.ts`). -/
structure Coord where
  latitude : ℚ
  longitude : ℚ
deriving DecidableEq, Repr

/-- `calculateSpeed` from `src/src/utils/geo.util.ts`: the guard in the
source is `if (timeDiffSeconds === 0) return 0`, otherwise it divides. -/
def calculateSpeed (distanceMeters timeDiffSeconds : ℚ) : ℚ :=
  if timeDiffSeconds = 0 then 0 else distanceMeters / timeDiffSeconds

/-- `calculateSpeedKmh` from `src/src/utils/geo.util.ts`. -/
def calculateSpeedKmh (distanceMeters timeDiffSeconds : ℚ) : ℚ :=
  calculateSpeed distanceMeters timeDiffSeconds * (36 / 10)

/-! ## Kalman smoother (`KalmanService`) -/

/-- Per-device filter state (`KalmanState` in the source). -/
structure KalmanState where
  latitude : ℚ
  longitude : ℚ
  errorCovariance : ℚ
deriving DecidableEq, Repr

/-- The `Map<string, KalmanState>` held by the service, modelled as a
function from device ids to optional states (`Map.get` semantics). -/
def KStates : Type := String → Option KalmanState

/-- The empty state map (a freshly constructed service). -/
def kEmpty : KStates := fun _ => none

/-- `Map.set` on the state map. -/
def kSet (states : KStates) (deviceId : String) (st : KalmanState) : KStates :=
  fun d => if d = deviceId then some st else states d

/-- `Map.delete` on the state map (`resetDevice`). -/
def kDelete (states : KStates) (deviceId : String) : KStates :=
  fun d => if d = deviceId then none else states d

/-- The tuning constants of a `KalmanService` instance (constructor
arguments `processNoise` = Q and `measurementNoise` = R). -/
structure KalmanService where
  processNoise : ℚ
  measurementNoise : ℚ
deriving DecidableEq, Repr

/-- The exported singleton `kalmanService = new KalmanService()`:
Q = 0.001, R = 5.0. -/
def kalmanService : KalmanService := ⟨1 / 1000, 5⟩

/-- `KalmanService.applyKalmanFilter`: one 1-D predict/update step.
Returns the pair `{ estimate, errorCovariance }` of the source. -/
def KalmanService.applyKalmanFilter (s : KalmanService)
    (previousEstimate measurement errorCovariance : ℚ) : ℚ × ℚ :=
  let predictedEstimate := previousEstimate
  let predictedErrorCovariance := errorCovariance + s.processNoise
  let kalmanGain :=
    predictedErrorCovariance / (predictedErrorCovariance + s.measurementNoise)
  let estimate :=
    predictedEstimate + kalmanGain * (measurement - predictedEstimate)
  let updatedErrorCovariance := (1 - kalmanGain) * predictedErrorCovariance
  (estimate, updatedErrorCovariance)

/-- `KalmanService.updateErrorCovariance`: recomputes the covariance
update from the current covariance alone. -/
def KalmanService.updateErrorCovariance (s : KalmanService)
    (currentErrorCovariance : ℚ) : ℚ :=
  let predictedErrorCovariance := currentErrorCovariance + s.processNoise
  let kalmanGain :=
    predictedErrorCovariance / (predictedErrorCovariance + s.measurementNoise)
  (1 - kalmanGain) * predictedErrorCovariance

/-- `KalmanService.filter`: returns the filtered coordinate together with
the updated state map (the source mutates `this.states`). -/
def KalmanService.filter (s : KalmanService) (states : KStates)
    (deviceId : String) (noisyPoint : Coord) : Coord × KStates :=
  match states deviceId with
  | none =>
      (noisyPoint,
        kSet states deviceId
          ⟨noisyPoint.latitude, noisyPoint.longitude, 1⟩)
  | some state =>
      let filteredLat :=
        s.applyKalmanFilter state.latitude noisyPoint.latitude
          state.errorCovariance
      let filteredLng :=
        s.applyKalmanFilter state.longitude noisyPoint.longitude
          state.errorCovariance
      let updatedErrorCovariance :=
        s.updateErrorCovariance state.errorCovariance
      (⟨filteredLat.1, filteredLng.1⟩,
        kSet states deviceId
          ⟨filteredLat.1, filteredLng.1, updatedErrorCovariance⟩)

/-- `KalmanService.resetDevice`. -/
def KalmanService.resetDevice (_s : KalmanService) (states : KStates)
    (deviceId : String) : KStates :=
  kDelete states deviceId

/-! ## OSRM map-matching client (`OsrmService`, `src/unnamed/part_031`) -/

/-- Input point for map matching (`MapMatchPoint`); `timestamp` is the
epoch value in milliseconds, `accuracy` the optional GPS accuracy. -/
structure MapMatchPoint where
  lat : ℚ
  lng : ℚ
  timestamp : ℤ
  accuracy : Option ℚ
deriving DecidableEq, Repr

/-- Output point of `matchPath` (`MatchedPoint`). -/
structure MatchedPoint where
  lat : ℚ
  lng : ℚ
  confidence : ℚ
deriving DecidableEq, Repr

/-- One OSRM tracepoint; only the field the client reads is kept.
`location` is `[lng, lat]` — longitude first, as OSRM returns it. -/
structure OsrmTracepoint where
  location : ℚ × ℚ
deriving DecidableEq, Repr

/-- One OSRM matching group; only `confidence` is read by the client. -/
structure OsrmMatching where
  confidence : ℚ
deriving DecidableEq, Repr

/-- The parsed body of an OSRM match response (`OsrmMatchResponse`):
`matchings` and `tracepoints` are optional in the wire format. -/
structure OsrmMatchResponse where
  code : String
  matchings : Option (List OsrmMatching)
  tracepoints : Option (List (Option OsrmTracepoint))
deriving DecidableEq, Repr

/-- The fallback the client uses on every failure: echo the input
points with confidence 0. -/
def echoPoints (points : List MapMatchPoint) : List MatchedPoint :=
  points.map fun p => ⟨p.lat, p.lng, 0⟩

/-- The per-point search radii that `matchPath` joins with `;` into the
`radiuses` query parameter: 25 for the first and the last point, the
point's `accuracy` when present (`p.accuracy ?? 15`) else 15 for the
interior points.  The source performs no integer conversion. -/
def radiusesOf (points : List MapMatchPoint) : List ℚ :=
  points.mapIdx fun index p =>
    if index = 0 ∨ index = points.length - 1 then 25 else p.accuracy.getD 15

/-- The `timestamps` query parameter's components:
`Math.floor(p.timestamp.getTime() / 1000)` per point. -/
def timestampsOf (points : List MapMatchPoint) : List ℤ :=
  points.map fun p => ⌊(p.timestamp : ℚ) / 1000⌋

/-- The coordinate components of the request path, longitude first. -/
def coordinatesOf (points : List MapMatchPoint) : List (ℚ × ℚ) :=
  points.map fun p => (p.lng, p.lat)

/-- `OsrmService.matchPath`, with the HTTP exchange abstracted as an
`Except`: `Except.error` is a thrown transport/HTTP error (axios throws
on non-2xx status, timeouts and connection failures), `Except.ok` the
parsed response body.  All thrown errors are caught inside `matchPath`
and fall back to echoing the inputs; a `tracepoints` array longer than
the input indexes past `points` and the thrown `TypeError` is caught by
the same handler. -/
def matchPath (points : List MapMatchPoint)
    (httpResult : Except Unit OsrmMatchResponse) : List MatchedPoint :=
  if points.length < 3 then echoPoints points
  else
    match httpResult with
    | Except.error _ => echoPoints points
    | Except.ok data =>
        if data.code = "NoMatch" ∨ data.code = "NoSegment" then
          echoPoints points
        else if ¬ data.code = "Ok" then echoPoints points
        else
          match data.tracepoints with
          | none => echoPoints points
          | some tracepoints =>
              if tracepoints.length ≤ points.length then
                let matchings := data.matchings.getD []
                let overallConfidence :=
                  match matchings with
                  | [] => 0
                  | m :: _ => m.confidence
                (tracepoints.zip points).map fun tp =>
                  match tp.1 with
                  | none => ⟨tp.2.lat, tp.2.lng, 0⟩
                  | some tracepoint =>
                      ⟨tracepoint.location.2, tracepoint.location.1,
                        overallConfidence⟩
              else echoPoints points

/-! ## Storage data model (`DeviceMatrix`, `ProcessedDeviceMatrix`) -/

/-- The metadata sub-document.  TypeScript keeps it as a free-form
object; the fields the pipeline reads or writes are modelled, each
optional (absent = `none`). -/
structure Metadata where
  accuracy : Option ℚ
  speed : Option ℚ
  heading : Option ℚ
  stopCount : Option ℚ
  lastSeen : Option ℤ
  distance : Option ℚ
  timeDiffSeconds : Option ℚ
  processingMethod : Option String
  matchingConfidence : Option ℚ
  lastProcessedAge : Option ℚ
  stalePreviousPoint : Option Bool
  processedAt : Option ℤ
  rawMatrixId : Option ℕ
deriving DecidableEq, Repr

/-- The metadata object with no field set. -/
def emptyMetadata : Metadata :=
  ⟨none, none, none, none, none, none, none, none, none, none, none,
    none, none⟩

/-- A raw sample (`DeviceMatrix` document); `timestamp` is epoch
milliseconds, `id` the Mongo `_id`. -/
structure RawSample where
  id : ℕ
  deviceId : String
  tripId : Option ℕ
  timestamp : ℤ
  coordinates : Coord
  metadata : Option Metadata
deriving DecidableEq, Repr

/-- A processed sample (`ProcessedDeviceMatrix` document). -/
structure ProcessedSample where
  id : ℕ
  deviceId : String
  tripId : Option ℕ
  timestamp : ℤ
  coordinates : Coord
  metadata : Option Metadata
deriving DecidableEq, Repr

/-- The `deviceId` filter every processor query carries. -/
def byDevice (store : List ProcessedSample) (deviceId : String) :
    List ProcessedSample :=
  store.filter fun p => p.deviceId = deviceId

/-- Insert a sample into a timestamp-descending list, used to model the
`.sort(\x7b timestamp: -1 \x7d)` of the Mongo queries.  Mongo leaves the
order of equal timestamps unspecified; this model keeps the existing
element first, and no claim depends on the tie order. -/
def insertDescByTs (p : ProcessedSample) :
    List ProcessedSample → List ProcessedSample
  | [] => [p]
  | q :: rest =>
      if q.timestamp < p.timestamp then p :: q :: rest
      else q :: insertDescByTs p rest

/-- The store sorted by `timestamp` descending. -/
def sortByTsDesc : List ProcessedSample → List ProcessedSample
  | [] => []
  | p :: rest => insertDescByTs p (sortByTsDesc rest)

/-- `ProcessedDeviceMatrix.findOne(\x7b deviceId \x7d).sort(\x7b timestamp: -1 \x7d).limit(1)`:
the most recent processed sample of the device. -/
def findLatestProcessed (store : List ProcessedSample) (deviceId : String) :
    Option ProcessedSample :=
  (sortByTsDesc (byDevice store deviceId)).head?

/-- `getRecentPoints` of the worker:
`ProcessedDeviceMatrix.find(\x7b deviceId \x7d).sort(\x7b timestamp: -1 \x7d).limit(limit)`. -/
def getRecentPoints (store : List ProcessedSample) (deviceId : String)
    (limit : ℕ) : List ProcessedSample :=
  (sortByTsDesc (byDevice store deviceId)).take limit

/-- `saveProcessedMatrix`: builds the new `ProcessedDeviceMatrix`
document.  `filteredCoordinates` is the optional second argument
(`coordinates = filteredCoordinates || rawMatrix.coordinates`);
`additionalMetadata` models the object spread
`\x7b ...rawMatrix.metadata, ...additionalMetadata, processedAt, rawMatrixId \x7d`
as an update applied over the raw metadata. -/
def saveProcessedMatrix (now : ℤ) (newId : ℕ) (rawMatrix : RawSample)
    (filteredCoordinates : Option Coord)
    (additionalMetadata : Metadata → Metadata) : ProcessedSample :=
  let coordinates := filteredCoordinates.getD rawMatrix.coordinates
  let newMeta : Metadata :=
    { additionalMetadata (rawMatrix.metadata.getD emptyMetadata) with
        processedAt := some now
        rawMatrixId := some rawMatrix.id }
  { id := newId
    deviceId := rawMatrix.deviceId
    tripId := rawMatrix.tripId
    timestamp := rawMatrix.timestamp
    coordinates := ⟨coordinates.latitude, coordinates.longitude⟩
    metadata := some newMeta }

/-! ## Track processor (`processTrack`) -/

/-- `STOP_THRESHOLD_METERS` (worker constant). -/
def STOP_THRESHOLD_METERS : ℚ := 5

/-- `MAX_LAST_LOCATION_AGE_SECONDS` (worker constant). -/
def MAX_LAST_LOCATION_AGE_SECONDS : ℚ := 300

/-- `OSRM_CONTEXT_POINTS` (worker constant). -/
def OSRM_CONTEXT_POINTS : ℕ := 10

/-- `OSRM_MIN_CONFIDENCE` (worker constant). -/
def OSRM_MIN_CONFIDENCE : ℚ := 1 / 2

/-- `lastProcessed.metadata?.stopCount || 0`: the predecessor's stop
count with 0 when the metadata object or the field is absent (JS `||`
also maps an explicit 0 to 0, which coincides with the default). -/
def stopCountRead (p : ProcessedSample) : ℚ :=
  (p.metadata.bind Metadata.stopCount).getD 0

/-- The `findByIdAndUpdate` of the stop-coalesce branch applied to one
stored document: on the document with the predecessor's `_id` it sets
`metadata.lastSeen` to the raw timestamp and `metadata.stopCount` to
the fetched predecessor's count plus one (Mongo `$set` on a dotted path
creates the `metadata` sub-document when it is absent). -/
def applyStopUpdate (lastProcessed : ProcessedSample) (rawTs : ℤ)
    (p : ProcessedSample) : ProcessedSample :=
  if p.id = lastProcessed.id then
    let newMeta : Metadata :=
      { p.metadata.getD emptyMetadata with
          lastSeen := some rawTs
          stopCount := some (stopCountRead lastProcessed + 1) }
    { p with metadata := some newMeta }
  else p

/-- The outcome of one `processTrack` job: the `action` string the
worker returns plus the updated processed store and Kalman state map. -/
structure TrackResult where
  action : String
  store : List ProcessedSample
  kalman : KStates

/-- `processTrack`, the worker's job body, as a pure state transformer.
Its collaborators appear as arguments: `dist` is the imported
`calculateDistance` (turf haversine), `now` is `Date.now()` in
milliseconds, `newId` the `_id` Mongo assigns to an inserted document,
and `httpResult` the OSRM exchange consumed by `matchPath`.  Division
of rationals by zero yields 0 where JS would yield `Infinity`
(`speed: distance / timeDiffSeconds` when `timeDiffSeconds = 0`); no
claim depends on that point. -/
def processTrack (dist : Coord → Coord → ℚ) (now : ℤ) (newId : ℕ)
    (store : List ProcessedSample) (kalman : KStates)
    (rawMatrix : RawSample) (httpResult : Except Unit OsrmMatchResponse) :
    TrackResult :=
  match findLatestProcessed store rawMatrix.deviceId with
  | none =>
      { action := "saved_first_point"
        store := store ++ [saveProcessedMatrix now newId rawMatrix none id]
        kalman := kalman }
  | some lastProcessed =>
      let timeDiffSeconds : ℚ :=
        ((rawMatrix.timestamp - lastProcessed.timestamp : ℤ) : ℚ) / 1000
      if timeDiffSeconds < 0 then
        { action := "skipped_out_of_order", store := store, kalman := kalman }
      else
        let lastProcessedAge : ℚ :=
          ((now - lastProcessed.timestamp : ℤ) : ℚ) / 1000
        if MAX_LAST_LOCATION_AGE_SECONDS < lastProcessedAge then
          { action := "saved_after_stale"
            store := store ++
              [saveProcessedMatrix now newId rawMatrix none fun m =>
                { m with
                    lastProcessedAge := some lastProcessedAge
                    stalePreviousPoint := some true }]
            kalman := kalmanService.resetDevice kalman rawMatrix.deviceId }
        else
          let distance := dist lastProcessed.coordinates rawMatrix.coordinates
          if distance < STOP_THRESHOLD_METERS then
            { action := "stop_detected"
              store := store.map
                (applyStopUpdate lastProcessed rawMatrix.timestamp)
              kalman := kalman }
          else
            let filtered := kalmanService.filter kalman rawMatrix.deviceId
              rawMatrix.coordinates
            let kalmanSmoothedCoordinates := filtered.1
            let recentPoints := getRecentPoints store rawMatrix.deviceId
              (OSRM_CONTEXT_POINTS - 1)
            let pointsForMatching : List MapMatchPoint :=
              recentPoints.reverse.map (fun p =>
                ⟨p.coordinates.latitude, p.coordinates.longitude,
                  p.timestamp, p.metadata.bind Metadata.accuracy⟩) ++
              [⟨kalmanSmoothedCoordinates.latitude,
                kalmanSmoothedCoordinates.longitude,
                rawMatrix.timestamp, rawMatrix.metadata.bind Metadata.accuracy⟩]
            let selected : Coord × String × ℚ :=
              if 3 ≤ pointsForMatching.length then
                match (matchPath pointsForMatching httpResult).getLast? with
                | none =>
                    (kalmanSmoothedCoordinates, "kalman_fallback", 0)
                | some currentMatchedPoint =>
                    if OSRM_MIN_CONFIDENCE ≤ currentMatchedPoint.confidence
                    then
                      (⟨currentMatchedPoint.lat, currentMatchedPoint.lng⟩,
                        "osrm", currentMatchedPoint.confidence)
                    else
                      (kalmanSmoothedCoordinates, "kalman",
                        currentMatchedPoint.confidence)
              else (kalmanSmoothedCoordinates, "kalman", 0)
            { action := "processed_and_saved"
              store := store ++
                [saveProcessedMatrix now newId rawMatrix (some selected.1)
                  fun m =>
                    { m with
                        distance := some distance
                        timeDiffSeconds := some timeDiffSeconds
                        speed := some (distance / timeDiffSeconds)
                        processingMethod := some selected.2.1
                        matchingConfidence := some selected.2.2 }]
              kalman := filtered.2 }

/-! ## Sequential runs of the processor -/

/-- One queued job as the worker sees it, with the ambient inputs of
its run (`Date.now()`, the `_id` the insert would receive, the OSRM
exchange). -/
structure JobInput where
  now : ℤ
  newId : ℕ
  raw : RawSample
  httpResult : Except Unit OsrmMatchResponse

/-- The shared system state a sequential run threads through jobs. -/
structure SysState where
  store : List ProcessedSample
  kalman : KStates

/-- Run one job against the state. -/
def stepJob (dist : Coord → Coord → ℚ) (s : SysState) (j : JobInput) :
    SysState :=
  let r := processTrack dist j.now j.newId s.store s.kalman j.raw j.httpResult
  { store := r.store, kalman := r.kalman }

/-- Sequential (non-racing) execution: each job completes before the
next begins. -/
def runJobs (dist : Coord → Coord → ℚ) (s : SysState) :
    List JobInput → SysState
  | [] => s
  | j :: rest => runJobs dist (stepJob dist s j) rest

/-! ## Concrete fixtures

A concrete distance function and concrete samples used to instantiate
closed statements.  `gridDist` stands in for the turf haversine the
worker imports: it is zero exactly on equal coordinates and scales
coordinate differences to a metre-like magnitude, which is all the
instantiated branches consult. -/

/-- A concrete instantiation of the processor's distance port. -/
def gridDist (a b : Coord) : ℚ :=
  (|a.latitude - b.latitude| + |a.longitude - b.longitude|) * 111320

/-- (28.6129, 77.2295), the spec's scenario coordinates. -/
def coordA : Coord := ⟨286129 / 10000, 772295 / 10000⟩

/-- One ten-thousandth of a degree north-east of `coordA`. -/
def coordB : Coord := ⟨286130 / 10000, 772296 / 10000⟩

/-- Three ten-thousandths of a degree north-east of `coordA`. -/
def coordC : Coord := ⟨286132 / 10000, 772298 / 10000⟩

/-- A stored processed sample for device `D` at epoch 0. -/
def fixP1 : ProcessedSample := ⟨1, "D", none, 0, coordA, none⟩

/-- A stored processed sample for device `D` at epoch 30 s. -/
def fixP2 : ProcessedSample := ⟨2, "D", none, 30000, coordB, none⟩

/-- A raw move sample for device `D` at epoch 60 s. -/
def fixRawMove : RawSample := ⟨3, "D", none, 60000, coordC, none⟩

/-- A raw first sample for device `D` at epoch 0. -/
def fixRaw0 : RawSample := ⟨10, "D", none, 0, coordA, none⟩

/-- A raw sample for device `D` at epoch 400 s with the coordinates of
`fixRaw0`. -/
def fixRawStale : RawSample := ⟨11, "D", none, 400000, coordA, none⟩

/-- Two sequential jobs: a first point, then the same coordinates after
a 400 s gap (stale). -/
def fixJobs : List JobInput :=
  [⟨0, 1, fixRaw0, Except.error ()⟩,
   ⟨400000, 2, fixRawStale, Except.error ()⟩]

/-- A three-point match input whose interior point carries the
fractional accuracy 12.5 (the value of the repository's own example
payload). -/
def fixPts3 : List MapMatchPoint :=
  [⟨0, 0, 0, none⟩, ⟨1, 1, 0, some (25 / 2)⟩, ⟨2, 2, 0, none⟩]

/-- The Kalman gain computed from a stored covariance `P` on a
non-initial call, exactly as both `applyKalmanFilter` and
`updateErrorCovariance` compute it: `(P + Q) / ((P + Q) + R)` for the
singleton service's Q = 1/1000 and R = 5. -/
def kalmanGainAt (P : ℚ) : ℚ :=
  (P + kalmanService.processNoise) /
    (P + kalmanService.processNoise + kalmanService.measurementNoise)

/-- The invariant of the per-device state map: every stored covariance
lies in (0, 1]. -/
def GoodStates (states : KStates) : Prop :=
  ∀ d st, states d = some st →
    0 < st.errorCovariance ∧ st.errorCovariance ≤ 1

/-- A device stream whose consecutive timestamps never decrease. -/
def tsMonotone (l : List ProcessedSample) : Prop :=
  l.Chain' fun p q => p.timestamp ≤ q.timestamp

/-- The store invariant of sequential execution: every device's
filtered stream, in insertion order, is timestamp-monotone. -/
def StoreOk (store : List ProcessedSample) : Prop :=
  ∀ d, tsMonotone (byDevice store d)

/-! ## Helper lemmas -/

theorem get?_mapIdx (l : List α) (f : ℕ → α → β) (i : ℕ) :
    (l.mapIdx f).get? i = (l.get? i).map (f i) := by
  rcases Nat.lt_or_ge i l.length with h | h
  · have h' : i < (l.mapIdx f).length := by
      simpa [List.length_mapIdx] using h
    rw [List.get?_eq_get h, List.get?_eq_get h', List.get_mapIdx l f i h]
    simp
  · rw [List.get?_eq_none.2 h,
      List.get?_eq_none.2 (by simpa [List.length_mapIdx] using h)]
    simp

/-! ## Claim C7 — `calculateSpeed` -/

/-- C7 counterexample: the claim says `calculateSpeed` returns 0
whenever `dt ≤ 0`, but the source guard is `dt === 0` only, so a
negative time difference divides: `calculateSpeed 10 (-5) = -2 ≠ 0`. -/
theorem claim_C7_counterexample :
    calculateSpeed 10 (-5) = -2 ∧ calculateSpeed 10 (-5) ≠ 0 := by
  constructor <;> norm_num [calculateSpeed]

/-- C7 (amended): `calculateSpeed d dt` returns 0 exactly when
`dt = 0`; for every other `dt` — negative included — it returns
`d / dt`. -/
theorem claim_C7_speed (d dt : ℚ) :
    (dt = 0 → calculateSpeed d dt = 0) ∧
    (dt ≠ 0 → calculateSpeed d dt = d / dt) := by
  constructor <;> intro h <;> simp [calculateSpeed, h]

/-- C7 witness: the amended theorem applied at `dt = 0` and at
`dt = 4`. -/
theorem claim_C7_witness :
    calculateSpeed 12 0 = 0 ∧ calculateSpeed 12 4 = 3 := by
  refine ⟨(claim_C7_speed 12 0).1 rfl, ?_⟩
  rw [(claim_C7_speed 12 4).2 (by norm_num)]
  norm_num

/-! ## Claim C4 — the Kalman filter step -/

/-- C4: on a device with no stored state, `filter` returns the
measurement unchanged and stores it with covariance 1; on a device with
state `st`, both axes are updated with the same gain
`K = P' / (P' + R)` for `P' = P + Q` (Q = 1/1000, R = 5), giving
`estimate + K * (z - estimate)` per axis, and the single shared
covariance is persisted once as `(1 - K) * P'`. -/
theorem claim_C4_kalman_filter_step (states : KStates) (deviceId : String)
    (z : Coord) :
    (states deviceId = none →
      (kalmanService.filter states deviceId z).1 = z ∧
      (kalmanService.filter states deviceId z).2 deviceId =
        some ⟨z.latitude, z.longitude, 1⟩) ∧
    (∀ st, states deviceId = some st →
      (kalmanService.filter states deviceId z).1 =
        ⟨st.latitude + (st.errorCovariance + 1 / 1000) /
            (st.errorCovariance + 1 / 1000 + 5) * (z.latitude - st.latitude),
          st.longitude + (st.errorCovariance + 1 / 1000) /
            (st.errorCovariance + 1 / 1000 + 5) *
            (z.longitude - st.longitude)⟩ ∧
      (kalmanService.filter states deviceId z).2 deviceId =
        some ⟨st.latitude + (st.errorCovariance + 1 / 1000) /
            (st.errorCovariance + 1 / 1000 + 5) * (z.latitude - st.latitude),
          st.longitude + (st.errorCovariance + 1 / 1000) /
            (st.errorCovariance + 1 / 1000 + 5) * (z.longitude - st.longitude),
          (1 - (st.errorCovariance + 1 / 1000) /
              (st.errorCovariance + 1 / 1000 + 5)) *
            (st.errorCovariance + 1 / 1000)⟩) := by
  constructor
  · intro h
    simp [KalmanService.filter, h, kSet]
  · intro st h
    simp [KalmanService.filter, h, kSet, kalmanService,
      KalmanService.applyKalmanFilter, KalmanService.updateErrorCovariance]

/-- C4 witness: the theorem applied to a fresh device and to a device
whose covariance is 1. -/
theorem claim_C4_witness :
    (kalmanService.filter kEmpty "A" ⟨2, 3⟩).1 = ⟨2, 3⟩ ∧
    (kalmanService.filter (kSet kEmpty "A" ⟨2, 3, 1⟩) "A" ⟨4, 5⟩).1 =
      ⟨2 + (1 + 1 / 1000) / (1 + 1 / 1000 + 5) * (4 - 2),
        3 + (1 + 1 / 1000) / (1 + 1 / 1000 + 5) * (5 - 3)⟩ := by
  constructor
  · exact ((claim_C4_kalman_filter_step kEmpty "A" ⟨2, 3⟩).1 rfl).1
  · exact ((claim_C4_kalman_filter_step (kSet kEmpty "A" ⟨2, 3, 1⟩) "A"
      ⟨4, 5⟩).2 ⟨2, 3, 1⟩ (by simp [kSet])).1

/-! ## Claim C8 — the per-point radii of the match request -/

/-- C8 counterexample: the claim says an interior point's radius is its
integer accuracy, but the source passes `p.accuracy ?? 15` through with
no integer conversion: with the repository's own example accuracy 12.5
the interior radius is 12.5 — not the integer 12 (nor any integer). -/
theorem claim_C8_counterexample :
    (radiusesOf fixPts3).get? 1 = some (25 / 2) ∧
    (radiusesOf fixPts3).get? 1 ≠ some 12 ∧ ((25 : ℚ) / 2).den ≠ 1 := by
  refine ⟨?_, ?_, by norm_num [Rat.den_div_eq_of_coprime]⟩ <;>
    rw [radiusesOf, get?_mapIdx] <;> norm_num [fixPts3]

/-- C8 (amended): for every match input of at least 3 points, the
radius list pairs positionally with the input; the first and last
entries are 25 and each interior entry is the point's accuracy exactly
as given when present, else 15. -/
theorem claim_C8_radiuses (points : List MapMatchPoint)
    (h3 : 3 ≤ points.length) :
    (radiusesOf points).length = points.length ∧
    (radiusesOf points).get? 0 = some 25 ∧
    (radiusesOf points).get? (points.length - 1) = some 25 ∧
    ∀ i, 0 < i → i < points.length - 1 →
      (radiusesOf points).get? i =
        (points.get? i).map fun p => p.accuracy.getD 15 := by
  refine ⟨by simp [radiusesOf, List.length_mapIdx], ?_, ?_, ?_⟩
  · rw [radiusesOf, get?_mapIdx]
    rcases List.get?_eq_get (show 0 < points.length by omega) with h
    rw [h]
    simp
  · rw [radiusesOf, get?_mapIdx]
    rcases List.get?_eq_get
      (show points.length - 1 < points.length by omega) with h
    rw [h]
    simp
  · intro i hi0 hi1
    rw [radiusesOf, get?_mapIdx]
    rcases List.get?_eq_get (show i < points.length by omega) with h
    rw [h]
    have : ¬ (i = 0 ∨ i = points.length - 1) := by omega
    simp [this]

/-- C8 witness: the amended theorem applied to the three-point fixture;
the interior radius is the fractional accuracy itself. -/
theorem claim_C8_witness :
    (radiusesOf fixPts3).get? 0 = some 25 ∧
    (radiusesOf fixPts3).get? 1 = some (25 / 2) ∧
    (radiusesOf fixPts3).get? 2 = some 25 := by
  have h := claim_C8_radiuses fixPts3 (by norm_num [fixPts3])
  refine ⟨h.2.1, ?_, ?_⟩
  · rw [h.2.2.2 1 (by norm_num) (by norm_num [fixPts3])]
    norm_num [fixPts3]
  · have h2 := h.2.2.1
    simpa [fixPts3] using h2

/-! ## Claim C5 — `matchPath` on a well-formed Ok response -/

/-- C5: for an input of at least 3 points and an Ok response carrying
exactly one tracepoint per input point, `matchPath` pairs the output
positionally with the input: a null tracepoint yields the input point
with confidence 0, a matched tracepoint yields its `[lng, lat]`
location with the overall confidence of the first matching group
(0 when `matchings` is absent or empty). -/
theorem claim_C5_matchPath_ok (points : List MapMatchPoint)
    (resp : OsrmMatchResponse) (tps : List (Option OsrmTracepoint))
    (h3 : 3 ≤ points.length) (hcode : resp.code = "Ok")
    (htps : resp.tracepoints = some tps)
    (hlen : tps.length = points.length) :
    (matchPath points (Except.ok resp)).length = points.length ∧
    ∀ i p tp, points.get? i = some p → tps.get? i = some tp →
      (matchPath points (Except.ok resp)).get? i = some
        (match tp with
          | none => ⟨p.lat, p.lng, 0⟩
          | some t =>
              ⟨t.location.2, t.location.1,
                (((resp.matchings.getD []).head?).map
                    OsrmMatching.confidence).getD 0⟩) := by
  have hres : matchPath points (Except.ok resp) =
      (tps.zip points).map fun tp =>
        match tp.1 with
        | none => (⟨tp.2.lat, tp.2.lng, 0⟩ : MatchedPoint)
        | some tracepoint =>
            ⟨tracepoint.location.2, tracepoint.location.1,
              match resp.matchings.getD [] with
              | [] => 0
              | m :: _ => m.confidence⟩ := by
    rw [matchPath]
    rw [if_neg (by omega), hcode]
    rw [if_neg (by simp), if_neg (by simp), htps]
    dsimp only
    rw [if_pos (by omega)]
  constructor
  · rw [hres]
    simp [List.length_zip, hlen]
  · intro i p tp hp htp
    rw [hres, List.get?_map,
      (List.get?_zip_eq_some tps points (tp, p) i).2 ⟨htp, hp⟩]
    cases tp with
    | none => simp
    | some t =>
        cases hm : resp.matchings.getD [] with
        | nil => simp [hm]
        | cons m rest => simp [hm]

/-- C5 witness: the theorem applied to a concrete 3-point input whose
middle tracepoint is null; the matched points take the first matching
group's confidence 0.87, the null one echoes its input with 0. -/
theorem claim_C5_witness :
    (matchPath fixPts3 (Except.ok
        ⟨"Ok", some [⟨87 / 100⟩],
          some [some ⟨(10, 20)⟩, none, some ⟨(30, 40)⟩]⟩)).get? 0 =
      some ⟨20, 10, 87 / 100⟩ ∧
    (matchPath fixPts3 (Except.ok
        ⟨"Ok", some [⟨87 / 100⟩],
          some [some ⟨(10, 20)⟩, none, some ⟨(30, 40)⟩]⟩)).get? 1 =
      some ⟨1, 1, 0⟩ := by
  have h := claim_C5_matchPath_ok fixPts3
    ⟨"Ok", some [⟨87 / 100⟩], some [some ⟨(10, 20)⟩, none, some ⟨(30, 40)⟩]⟩
    [some ⟨(10, 20)⟩, none, some ⟨(30, 40)⟩]
    (by norm_num [fixPts3]) rfl rfl (by norm_num [fixPts3])
  constructor
  · have h0 := h.2 0 ⟨0, 0, 0, none⟩ (some ⟨(10, 20)⟩)
      (by norm_num [fixPts3]) rfl
    simpa using h0
  · have h1 := h.2 1 ⟨1, 1, 0, some (25 / 2)⟩ none
      (by norm_num [fixPts3]) rfl
    simpa using h1

/-! ## Claim C2 — the first point of a device -/

/-- C2 counterexample: on a device with no prior processed sample the
worker calls `saveProcessedMatrix(rawMatrix)` with no additional
metadata, so the inserted sample's metadata carries NO
`processingMethod` field at all — the claimed `raw_first` marker (which
appears nowhere in the repository) is not recorded. -/
theorem claim_C2_counterexample :
    ((processTrack gridDist 0 1 [] kEmpty fixRaw0 (Except.error ())).store.map
        fun p => p.metadata.bind Metadata.processingMethod) = [none] ∧
    ((processTrack gridDist 0 1 [] kEmpty fixRaw0 (Except.error ())).store.map
        fun p => p.metadata.bind Metadata.processingMethod) ≠
      [some "raw_first"] := by
  constructor
  · rfl
  · intro h
    simp [processTrack, findLatestProcessed, byDevice, sortByTsDesc,
      saveProcessedMatrix, fixRaw0, emptyMetadata] at h

/-- C2 (amended): on a device with no prior processed sample the worker
appends exactly one processed sample whose coordinates and timestamp
are the raw sample's unchanged and returns without touching the Kalman
state; the inserted metadata is the raw metadata plus `processedAt` and
`rawMatrixId` — in particular no `processingMethod` field is written
(the raw metadata of an ingested sample carries none). -/
theorem claim_C2_first_point (dist : Coord → Coord → ℚ) (now : ℤ)
    (newId : ℕ) (store : List ProcessedSample) (kalman : KStates)
    (rawMatrix : RawSample) (httpResult : Except Unit OsrmMatchResponse)
    (hnone : findLatestProcessed store rawMatrix.deviceId = none)
    (hm : (rawMatrix.metadata.getD emptyMetadata).processingMethod = none) :
    (processTrack dist now newId store kalman rawMatrix httpResult).action =
      "saved_first_point" ∧
    (processTrack dist now newId store kalman rawMatrix httpResult).store =
      store ++ [saveProcessedMatrix now newId rawMatrix none id] ∧
    (saveProcessedMatrix now newId rawMatrix none id).coordinates =
      rawMatrix.coordinates ∧
    (saveProcessedMatrix now newId rawMatrix none id).timestamp =
      rawMatrix.timestamp ∧
    (saveProcessedMatrix now newId rawMatrix none id).metadata.bind
      Metadata.processingMethod = none ∧
    (processTrack dist now newId store kalman rawMatrix httpResult).kalman =
      kalman := by
  refine ⟨?_, ?_, ?_, ?_, ?_, ?_⟩ <;>
    simp [processTrack, hnone, saveProcessedMatrix, hm]

/-- C2 witness: the amended theorem applied to an empty store and the
concrete first sample. -/
theorem claim_C2_witness :
    (processTrack gridDist 0 1 [] kEmpty fixRaw0 (Except.error ())).action =
      "saved_first_point" ∧
    (saveProcessedMatrix 0 1 fixRaw0 none id).coordinates =
      fixRaw0.coordinates := by
  have h := claim_C2_first_point gridDist 0 1 [] kEmpty fixRaw0
    (Except.error ()) rfl rfl
  exact ⟨h.1, h.2.2.1⟩

/-! ## Claim C6 — stop coalescing and its strict boundary -/

/-- C6: when the distance from the last processed coordinates to the
raw coordinates is strictly below 5 m, no sample is inserted: the store
is only mapped by the predecessor update, which leaves every other
document unchanged and only rewrites the predecessor's metadata
(`lastSeen` to the raw timestamp, `stopCount` incremented), keeping its
coordinates and timestamp; a distance of exactly 5 m instead takes the
movement path and inserts a new sample. -/
theorem claim_C6_stop_coalesce (dist dist2 : Coord → Coord → ℚ) (now : ℤ)
    (newId : ℕ) (store : List ProcessedSample) (kalman : KStates)
    (rawMatrix : RawSample) (httpResult : Except Unit OsrmMatchResponse)
    (lastProcessed : ProcessedSample)
    (hlast : findLatestProcessed store rawMatrix.deviceId =
      some lastProcessed)
    (hord : lastProcessed.timestamp ≤ rawMatrix.timestamp)
    (hfresh : ((now - lastProcessed.timestamp : ℤ) : ℚ) / 1000 ≤
      MAX_LAST_LOCATION_AGE_SECONDS)
    (hstop : dist lastProcessed.coordinates rawMatrix.coordinates <
      STOP_THRESHOLD_METERS)
    (hexact : dist2 lastProcessed.coordinates rawMatrix.coordinates =
      STOP_THRESHOLD_METERS) :
    (processTrack dist now newId store kalman rawMatrix httpResult).action =
      "stop_detected" ∧
    (processTrack dist now newId store kalman rawMatrix httpResult).store =
      store.map (applyStopUpdate lastProcessed rawMatrix.timestamp) ∧
    (processTrack dist now newId store kalman rawMatrix
        httpResult).store.length = store.length ∧
    (processTrack dist now newId store kalman rawMatrix httpResult).kalman =
      kalman ∧
    (∀ p : ProcessedSample, p.id ≠ lastProcessed.id →
      applyStopUpdate lastProcessed rawMatrix.timestamp p = p) ∧
    (∀ p : ProcessedSample, p.id = lastProcessed.id →
      (applyStopUpdate lastProcessed rawMatrix.timestamp p).coordinates =
        p.coordinates ∧
      (applyStopUpdate lastProcessed rawMatrix.timestamp p).timestamp =
        p.timestamp ∧
      (applyStopUpdate lastProcessed rawMatrix.timestamp p).metadata.bind
        Metadata.lastSeen = some rawMatrix.timestamp ∧
      (applyStopUpdate lastProcessed rawMatrix.timestamp p).metadata.bind
        Metadata.stopCount = some (stopCountRead lastProcessed + 1)) ∧
    (processTrack dist2 now newId store kalman rawMatrix httpResult).action =
      "processed_and_saved" ∧
    (processTrack dist2 now newId store kalman rawMatrix
        httpResult).store.length = store.length + 1 := by
  have hnotold : ¬ ((rawMatrix.timestamp : ℚ) -
      (lastProcessed.timestamp : ℚ)) / 1000 < 0 := by
    refine not_lt.2 (div_nonneg ?_ (by norm_num))
    have h := sub_nonneg.2 hord
    exact_mod_cast h
  have hfresh2 := hfresh
  push_cast at hfresh2
  have hnotstale : ¬ MAX_LAST_LOCATION_AGE_SECONDS <
      ((now : ℚ) - (lastProcessed.timestamp : ℚ)) / 1000 :=
    not_lt.2 hfresh2
  have hnotstop2 : ¬ dist2 lastProcessed.coordinates rawMatrix.coordinates <
      STOP_THRESHOLD_METERS := by rw [hexact]; exact lt_irrefl _
  refine ⟨?_, ?_, ?_, ?_, ?_, ?_, ?_, ?_⟩
  · simp [processTrack, hlast, hnotold, hnotstale, hstop]
  · simp [processTrack, hlast, hnotold, hnotstale, hstop]
  · simp [processTrack, hlast, hnotold, hnotstale, hstop]
  · simp [processTrack, hlast, hnotold, hnotstale, hstop]
  · intro p hp
    simp [applyStopUpdate, hp]
  · intro p hp
    refine ⟨?_, ?_, ?_, ?_⟩ <;> simp [applyStopUpdate, hp]
  · simp [processTrack, hlast, hnotold, hnotstale, hnotstop2]
  · simp [processTrack, hlast, hnotold, hnotstale, hnotstop2]

/-- C6 witness: a 3 m stop coalesces into the fixture predecessor and a
5 m displacement inserts a new sample. -/
theorem claim_C6_witness :
    (processTrack (fun _ _ => 3) 1000 7 [fixP1] kEmpty
        ⟨20, "D", none, 1000, coordB, none⟩ (Except.error ())).action =
      "stop_detected" ∧
    (processTrack (fun _ _ => 5) 1000 7 [fixP1] kEmpty
        ⟨20, "D", none, 1000, coordB, none⟩ (Except.error ())).store.length =
      2 := by
  have h := claim_C6_stop_coalesce (fun _ _ => 3) (fun _ _ => 5) 1000 7
    [fixP1] kEmpty ⟨20, "D", none, 1000, coordB, none⟩ (Except.error ())
    fixP1 rfl (by norm_num [fixP1]) (by norm_num [fixP1,
      MAX_LAST_LOCATION_AGE_SECONDS]) (by norm_num [STOP_THRESHOLD_METERS])
    rfl
  exact ⟨h.1, h.2.2.2.2.2.2.2⟩

/-! ## Claim C10 — the stop-count default -/

/-- C10: in the stop-coalesce update the predecessor's stop count is
read as `metadata?.stopCount || 0`: when the metadata object is absent,
when the field is absent, and when it is 0, the written value is 1. -/
theorem claim_C10_stop_count_default (dist : Coord → Coord → ℚ) (now : ℤ)
    (newId : ℕ) (store : List ProcessedSample) (kalman : KStates)
    (rawMatrix : RawSample) (httpResult : Except Unit OsrmMatchResponse)
    (lastProcessed : ProcessedSample)
    (hlast : findLatestProcessed store rawMatrix.deviceId =
      some lastProcessed)
    (hord : lastProcessed.timestamp ≤ rawMatrix.timestamp)
    (hfresh : ((now - lastProcessed.timestamp : ℤ) : ℚ) / 1000 ≤
      MAX_LAST_LOCATION_AGE_SECONDS)
    (hstop : dist lastProcessed.coordinates rawMatrix.coordinates <
      STOP_THRESHOLD_METERS) :
    (processTrack dist now newId store kalman rawMatrix httpResult).store =
      store.map (applyStopUpdate lastProcessed rawMatrix.timestamp) ∧
    (lastProcessed.metadata = none →
      (applyStopUpdate lastProcessed rawMatrix.timestamp
          lastProcessed).metadata.bind Metadata.stopCount = some 1) ∧
    (∀ m, lastProcessed.metadata = some m → m.stopCount = none →
      (applyStopUpdate lastProcessed rawMatrix.timestamp
          lastProcessed).metadata.bind Metadata.stopCount = some 1) ∧
    (∀ m, lastProcessed.metadata = some m → m.stopCount = some 0 →
      (applyStopUpdate lastProcessed rawMatrix.timestamp
          lastProcessed).metadata.bind Metadata.stopCount = some 1) := by
  have hnotold : ¬ ((rawMatrix.timestamp : ℚ) -
      (lastProcessed.timestamp : ℚ)) / 1000 < 0 := by
    refine not_lt.2 (div_nonneg ?_ (by norm_num))
    have h := sub_nonneg.2 hord
    exact_mod_cast h
  have hfresh2 := hfresh
  push_cast at hfresh2
  have hnotstale : ¬ MAX_LAST_LOCATION_AGE_SECONDS <
      ((now : ℚ) - (lastProcessed.timestamp : ℚ)) / 1000 :=
    not_lt.2 hfresh2
  refine ⟨?_, ?_, ?_, ?_⟩
  · simp [processTrack, hlast, hnotold, hnotstale, hstop]
  · intro hmeta
    simp [applyStopUpdate, stopCountRead, hmeta]
  · intro m hmeta hsc
    simp [applyStopUpdate, stopCountRead, hmeta, hsc]
  · intro m hmeta hsc
    simp [applyStopUpdate, stopCountRead, hmeta, hsc]

/-- C10 witness: the theorem applied to a predecessor with no metadata
object; the written stop count is 1. -/
theorem claim_C10_witness :
    (applyStopUpdate fixP1 1000 fixP1).metadata.bind Metadata.stopCount =
      some 1 := by
  have h := claim_C10_stop_count_default (fun _ _ => 3) 1000 7 [fixP1]
    kEmpty ⟨20, "D", none, 1000, coordB, none⟩ (Except.error ()) fixP1 rfl
    (by norm_num [fixP1]) (by norm_num [fixP1, MAX_LAST_LOCATION_AGE_SECONDS])
    (by norm_num [STOP_THRESHOLD_METERS])
  exact h.2.1 rfl

/-! ## Claim C1 — what a thrown map-matcher error actually produces -/

theorem matchPath_error (points : List MapMatchPoint) :
    matchPath points (Except.error ()) = echoPoints points := by
  rw [matchPath]
  split
  · rfl
  · rfl

/-- C1: contrary to the claim (and to the repository's own pipeline
document, which promises `kalman_fallback` when the OSRM service is
unreachable or returns a 5xx), a thrown HTTP/transport error is caught
INSIDE `OsrmService.matchPath`, which echoes the inputs with
confidence 0; the worker then takes the low-confidence branch, so the
persisted sample of any move job whose OSRM exchange throws carries
`processingMethod = "kalman"` — never `"kalman_fallback"` — with
`matchingConfidence = 0` and the Kalman-smoothed coordinates. -/
theorem claim_C1_http_error_yields_kalman (dist : Coord → Coord → ℚ)
    (now : ℤ) (newId : ℕ) (store : List ProcessedSample) (kalman : KStates)
    (rawMatrix : RawSample) (lastProcessed : ProcessedSample)
    (hlast : findLatestProcessed store rawMatrix.deviceId =
      some lastProcessed)
    (hord : lastProcessed.timestamp ≤ rawMatrix.timestamp)
    (hfresh : ((now - lastProcessed.timestamp : ℤ) : ℚ) / 1000 ≤
      MAX_LAST_LOCATION_AGE_SECONDS)
    (hmove : ¬ dist lastProcessed.coordinates rawMatrix.coordinates <
      STOP_THRESHOLD_METERS) :
    (processTrack dist now newId store kalman rawMatrix
        (Except.error ())).action = "processed_and_saved" ∧
    ((processTrack dist now newId store kalman rawMatrix
        (Except.error ())).store.getLast?.map fun p =>
          p.metadata.bind Metadata.processingMethod) = some (some "kalman") ∧
    ((processTrack dist now newId store kalman rawMatrix
        (Except.error ())).store.getLast?.map fun p =>
          p.metadata.bind Metadata.matchingConfidence) = some (some 0) ∧
    ((processTrack dist now newId store kalman rawMatrix
        (Except.error ())).store.getLast?.map fun p => p.coordinates) =
      some (kalmanService.filter kalman rawMatrix.deviceId
        rawMatrix.coordinates).1 ∧
    ("kalman" : String) ≠ "kalman_fallback" := by
  have hnotold : ¬ ((rawMatrix.timestamp : ℚ) -
      (lastProcessed.timestamp : ℚ)) / 1000 < 0 := by
    refine not_lt.2 (div_nonneg ?_ (by norm_num))
    have h := sub_nonneg.2 hord
    exact_mod_cast h
  have hfresh2 := hfresh
  push_cast at hfresh2
  have hnotstale : ¬ MAX_LAST_LOCATION_AGE_SECONDS <
      ((now : ℚ) - (lastProcessed.timestamp : ℚ)) / 1000 :=
    not_lt.2 hfresh2
  have hconf : ¬ OSRM_MIN_CONFIDENCE ≤ (0 : ℚ) := by
    norm_num [OSRM_MIN_CONFIDENCE]
  refine ⟨?_, ?_, ?_, ?_, by simp⟩ <;>
    simp [processTrack, hlast, hnotold, hnotstale, hmove, matchPath_error,
      echoPoints, List.getLast?_concat, hconf, saveProcessedMatrix]

/-- C1 witness: the theorem at the scenario of the claim — two
processed points 30 s apart, a 44.5 m move, OSRM answering HTTP 500
(a thrown axios error): the job completes with `method = kalman`,
confidence 0, smoothed coordinates. -/
theorem claim_C1_witness :
    (processTrack gridDist 60000 4 [fixP1, fixP2] kEmpty fixRawMove
        (Except.error ())).action = "processed_and_saved" ∧
    ((processTrack gridDist 60000 4 [fixP1, fixP2] kEmpty fixRawMove
        (Except.error ())).store.getLast?.map fun p =>
          p.metadata.bind Metadata.processingMethod) =
      some (some "kalman") := by
  have h := claim_C1_http_error_yields_kalman gridDist 60000 4 [fixP1, fixP2]
    kEmpty fixRawMove fixP2 rfl (by norm_num [fixP1, fixP2, fixRawMove])
    (by norm_num [fixP2, MAX_LAST_LOCATION_AGE_SECONDS])
    (by rw [gridDist]
        norm_num [fixP2, fixRawMove, coordB, coordC, STOP_THRESHOLD_METERS,
          show |(1 : ℚ) / 5000| = 1 / 5000 from abs_of_nonneg (by norm_num)])
  exact ⟨h.1, h.2.1⟩

/-! ## Claim C9 — the covariance invariant of the smoother -/

theorem covariance_step_bounds (P : ℚ) (h0 : 0 < P) (h1 : P ≤ 1) :
    0 < kalmanService.updateErrorCovariance P ∧
    kalmanService.updateErrorCovariance P ≤ 1 := by
  have hP' : (0 : ℚ) < P + 1 / 1000 := by linarith
  have hd : (0 : ℚ) < P + 1 / 1000 + 5 := by linarith
  have he : kalmanService.updateErrorCovariance P =
      (1 - (P + 1 / 1000) / (P + 1 / 1000 + 5)) * (P + 1 / 1000) := rfl
  rw [he]
  constructor
  · have hk : (P + 1 / 1000) / (P + 1 / 1000 + 5) < 1 := by
      rw [div_lt_one hd]; linarith
    have hpos : 0 < 1 - (P + 1 / 1000) / (P + 1 / 1000 + 5) := by linarith
    exact mul_pos hpos hP'
  · have heq : (1 - (P + 1 / 1000) / (P + 1 / 1000 + 5)) * (P + 1 / 1000) =
        5 * (P + 1 / 1000) / (P + 1 / 1000 + 5) := by
      field_simp
      ring
    rw [heq, div_le_one hd]
    linarith

theorem kalmanGainAt_bounds (P : ℚ) (h0 : 0 < P) :
    0 < kalmanGainAt P ∧ kalmanGainAt P < 1 := by
  have hP' : (0 : ℚ) < P + 1 / 1000 := by linarith
  have hd : (0 : ℚ) < P + 1 / 1000 + 5 := by linarith
  have he : kalmanGainAt P = (P + 1 / 1000) / (P + 1 / 1000 + 5) := rfl
  rw [he]
  exact ⟨div_pos hP' hd, by rw [div_lt_one hd]; linarith⟩

theorem kalman_est_between (x z K : ℚ) (h0 : 0 < K) (h1 : K < 1) :
    min x z ≤ x + K * (z - x) ∧ x + K * (z - x) ≤ max x z := by
  rcases le_total x z with h | h
  · rw [min_eq_left h, max_eq_right h]
    constructor <;> nlinarith
  · rw [min_eq_right h, max_eq_left h]
    constructor <;> nlinarith

/-- C9: the empty map satisfies the covariance invariant; one `filter`
call preserves it (an initial call stores covariance 1, a non-initial
call stores `(1 - K)·(P + Q)` which stays in (0, 1]); on every
non-initial call the shared gain is strictly between 0 and 1 and each
axis's output lies weakly between the previous estimate and the new
measurement. -/
theorem claim_C9_covariance_invariant (states : KStates) (deviceId : String)
    (z : Coord) (hG : GoodStates states) :
    GoodStates kEmpty ∧
    GoodStates (kalmanService.filter states deviceId z).2 ∧
    ∀ st, states deviceId = some st →
      (0 < kalmanGainAt st.errorCovariance ∧
        kalmanGainAt st.errorCovariance < 1) ∧
      (min st.latitude z.latitude ≤
          (kalmanService.filter states deviceId z).1.latitude ∧
        (kalmanService.filter states deviceId z).1.latitude ≤
          max st.latitude z.latitude) ∧
      (min st.longitude z.longitude ≤
          (kalmanService.filter states deviceId z).1.longitude ∧
        (kalmanService.filter states deviceId z).1.longitude ≤
          max st.longitude z.longitude) := by
  refine ⟨?_, ?_, ?_⟩
  · intro d st hd
    simp [kEmpty] at hd
  · cases h : states deviceId with
    | none =>
        intro d st' hd
        by_cases hdd : d = deviceId
        · subst hdd
          rw [show (kalmanService.filter states d z).2 d =
              some ⟨z.latitude, z.longitude, 1⟩ by
            simp [KalmanService.filter, h, kSet]] at hd
          cases hd
          norm_num
        · rw [show (kalmanService.filter states deviceId z).2 d = states d by
            simp [KalmanService.filter, h, kSet, hdd]] at hd
          exact hG d st' hd
    | some st =>
        intro d st' hd
        rcases hG deviceId st h with ⟨h0, h1⟩
        by_cases hdd : d = deviceId
        · subst hdd
          have hcov : st'.errorCovariance =
              kalmanService.updateErrorCovariance st.errorCovariance := by
            rw [show (kalmanService.filter states d z).2 d = some
                ⟨(kalmanService.applyKalmanFilter st.latitude z.latitude
                    st.errorCovariance).1,
                  (kalmanService.applyKalmanFilter st.longitude z.longitude
                    st.errorCovariance).1,
                  kalmanService.updateErrorCovariance st.errorCovariance⟩ by
              simp [KalmanService.filter, h, kSet]] at hd
            cases hd
            rfl
          rw [hcov]
          exact covariance_step_bounds st.errorCovariance h0 h1
        · rw [show (kalmanService.filter states deviceId z).2 d = states d by
            simp [KalmanService.filter, h, kSet, hdd]] at hd
          exact hG d st' hd
  · intro st h
    rcases hG deviceId st h with ⟨h0, _h1⟩
    rcases kalmanGainAt_bounds st.errorCovariance h0 with ⟨hk0, hk1⟩
    have hlat : (kalmanService.filter states deviceId z).1.latitude =
        st.latitude + kalmanGainAt st.errorCovariance *
          (z.latitude - st.latitude) := by
      simp [KalmanService.filter, h, KalmanService.applyKalmanFilter,
        kalmanGainAt]
    have hlng : (kalmanService.filter states deviceId z).1.longitude =
        st.longitude + kalmanGainAt st.errorCovariance *
          (z.longitude - st.longitude) := by
      simp [KalmanService.filter, h, KalmanService.applyKalmanFilter,
        kalmanGainAt]
    refine ⟨⟨hk0, hk1⟩, ?_, ?_⟩
    · rw [hlat]
      exact kalman_est_between st.latitude z.latitude _ hk0 hk1
    · rw [hlng]
      exact kalman_est_between st.longitude z.longitude _ hk0 hk1

/-- C9 witness: the theorem applied to a device holding covariance 1;
the gain lies in (0, 1) and the filtered point stays between the old
estimate (0, 0) and the measurement (4, 6). -/
theorem claim_C9_witness :
    (0 < kalmanGainAt 1 ∧ kalmanGainAt 1 < 1) ∧
    min (0 : ℚ) 4 ≤
      (kalmanService.filter (kSet kEmpty "A" ⟨0, 0, 1⟩) "A" ⟨4, 6⟩).1.latitude ∧
    (kalmanService.filter (kSet kEmpty "A" ⟨0, 0, 1⟩) "A"
        ⟨4, 6⟩).1.latitude ≤ max (0 : ℚ) 4 := by
  have hG : GoodStates (kSet kEmpty "A" ⟨0, 0, 1⟩) := by
    intro d st hd
    by_cases hdd : d = "A"
    · subst hdd
      rw [show kSet kEmpty "A" ⟨0, 0, 1⟩ "A" = some ⟨0, 0, 1⟩ by
        simp [kSet]] at hd
      cases hd
      norm_num
    · rw [show kSet kEmpty "A" ⟨0, 0, 1⟩ d = none by
        simp [kSet, kEmpty, hdd]] at hd
      cases hd
  have h := claim_C9_covariance_invariant (kSet kEmpty "A" ⟨0, 0, 1⟩) "A"
    ⟨4, 6⟩ hG
  have h2 := h.2.2 ⟨0, 0, 1⟩ (by simp [kSet])
  exact ⟨h2.1, h2.2.1.1, h2.2.1.2⟩

/-! ## Claim C3 — the shape of a device's emitted stream -/

theorem saveProcessedMatrix_deviceId (now : ℤ) (newId : ℕ)
    (raw : RawSample) (fc : Option Coord) (add : Metadata → Metadata) :
    (saveProcessedMatrix now newId raw fc add).deviceId = raw.deviceId := rfl

theorem saveProcessedMatrix_timestamp (now : ℤ) (newId : ℕ)
    (raw : RawSample) (fc : Option Coord) (add : Metadata → Metadata) :
    (saveProcessedMatrix now newId raw fc add).timestamp = raw.timestamp :=
  rfl

theorem saveProcessedMatrix_coordinates (now : ℤ) (newId : ℕ)
    (raw : RawSample) (fc : Option Coord) (add : Metadata → Metadata) :
    (saveProcessedMatrix now newId raw fc add).coordinates =
      fc.getD raw.coordinates := rfl

theorem applyStopUpdate_deviceId (lp : ProcessedSample) (ts : ℤ)
    (p : ProcessedSample) : (applyStopUpdate lp ts p).deviceId = p.deviceId := by
  rw [applyStopUpdate]
  split <;> rfl

theorem applyStopUpdate_timestamp (lp : ProcessedSample) (ts : ℤ)
    (p : ProcessedSample) :
    (applyStopUpdate lp ts p).timestamp = p.timestamp := by
  rw [applyStopUpdate]
  split <;> rfl

theorem head?_insertDescByTs (p : ProcessedSample)
    (l : List ProcessedSample) :
    (insertDescByTs p l).head? = some p ∨
    (insertDescByTs p l).head? = l.head? := by
  cases l with
  | nil => left; rfl
  | cons q rest =>
      rw [insertDescByTs]
      split
      · left; rfl
      · right; rfl

theorem chain_insertDescByTs (p : ProcessedSample)
    (l : List ProcessedSample)
    (h : l.Chain' fun a b => b.timestamp ≤ a.timestamp) :
    (insertDescByTs p l).Chain' fun a b => b.timestamp ≤ a.timestamp := by
  induction l with
  | nil => simp [insertDescByTs]
  | cons q rest ih =>
      rw [insertDescByTs]
      split
      next hq =>
        rw [List.chain'_cons]
        exact ⟨le_of_lt hq, h⟩
      next hq =>
        rw [List.chain'_cons']
        have h' := List.chain'_cons'.1 h
        refine ⟨?_, ih h'.2⟩
        intro y hy
        rcases head?_insertDescByTs p rest with hh | hh <;> rw [hh] at hy
        · have hyp : p = y := by simpa using hy
          subst hyp
          exact not_lt.1 hq
        · exact h'.1 y hy

theorem chain_sortByTsDesc (l : List ProcessedSample) :
    (sortByTsDesc l).Chain' fun a b => b.timestamp ≤ a.timestamp := by
  induction l with
  | nil => simp [sortByTsDesc]
  | cons p rest ih => exact chain_insertDescByTs p _ ih

theorem mem_insertDescByTs {q p : ProcessedSample}
    {l : List ProcessedSample} :
    q ∈ insertDescByTs p l ↔ q = p ∨ q ∈ l := by
  induction l with
  | nil => simp [insertDescByTs]
  | cons r rest ih =>
      rw [insertDescByTs]
      split
      · simp
      · simp [ih]
        tauto

theorem mem_sortByTsDesc {q : ProcessedSample} {l : List ProcessedSample} :
    q ∈ sortByTsDesc l ↔ q ∈ l := by
  induction l with
  | nil => simp [sortByTsDesc]
  | cons p rest ih =>
      rw [sortByTsDesc, mem_insertDescByTs]
      simp [ih]

theorem insertDescByTs_ne_nil (p : ProcessedSample)
    (l : List ProcessedSample) : insertDescByTs p l ≠ [] := by
  cases l with
  | nil => simp [insertDescByTs]
  | cons q rest =>
      rw [insertDescByTs]
      split <;> simp

theorem sortByTsDesc_eq_nil {l : List ProcessedSample} :
    sortByTsDesc l = [] ↔ l = [] := by
  cases l with
  | nil => simp [sortByTsDesc]
  | cons p rest =>
      rw [sortByTsDesc]
      simp [insertDescByTs_ne_nil]

theorem findLatest_none (store : List ProcessedSample) (d : String)
    (h : findLatestProcessed store d = none) : byDevice store d = [] := by
  rw [findLatestProcessed] at h
  cases hsort : sortByTsDesc (byDevice store d) with
  | nil => exact sortByTsDesc_eq_nil.1 hsort
  | cons a rest => rw [hsort] at h; cases h

theorem findLatest_ge (store : List ProcessedSample) (d : String)
    (lp : ProcessedSample) (h : findLatestProcessed store d = some lp) :
    ∀ q ∈ byDevice store d, q.timestamp ≤ lp.timestamp := by
  intro q hq
  have hs := chain_sortByTsDesc (byDevice store d)
  have hq' : q ∈ sortByTsDesc (byDevice store d) := mem_sortByTsDesc.2 hq
  rw [findLatestProcessed] at h
  cases hsort : sortByTsDesc (byDevice store d) with
  | nil => rw [hsort] at h; cases h
  | cons a rest =>
      rw [hsort] at h hq' hs
      have ha : a = lp := by
        simpa using h
      subst ha
      rcases List.mem_cons.1 hq' with rfl | hq2
      · exact le_refl _
      · haveI : IsTrans ProcessedSample
            (fun a b => b.timestamp ≤ a.timestamp) :=
          ⟨fun _ _ _ hxy hyz => le_trans hyz hxy⟩
        have hp := List.chain'_iff_pairwise.1 hs
        exact (List.pairwise_cons.1 hp).1 q hq2

theorem byDevice_append (store : List ProcessedSample) (p : ProcessedSample)
    (d : String) :
    byDevice (store ++ [p]) d =
      byDevice store d ++ if p.deviceId = d then [p] else [] := by
  rw [byDevice, byDevice, List.filter_append]
  congr 1
  rw [List.filter]
  split
  next hb => simp_all
  next hb => simp_all

theorem byDevice_map (store : List ProcessedSample) (d : String)
    (f : ProcessedSample → ProcessedSample)
    (hf : ∀ p, (f p).deviceId = p.deviceId) :
    byDevice (store.map f) d = (byDevice store d).map f := by
  induction store with
  | nil => rfl
  | cons q rest ih =>
      simp only [byDevice, List.map_cons, List.filter_cons, hf] at ih ⊢
      by_cases hq : q.deviceId = d
      · simp [hq, ih]
      · simp [hq, ih]

theorem tsMonotone_append_new (store : List ProcessedSample) (d : String)
    (newS : ProcessedSample) (hOk : tsMonotone (byDevice store d))
    (hge : newS.deviceId = d →
      ∀ q ∈ byDevice store d, q.timestamp ≤ newS.timestamp) :
    tsMonotone (byDevice (store ++ [newS]) d) := by
  rw [tsMonotone, byDevice_append]
  split
  next hd =>
    refine List.Chain'.append hOk (List.chain'_singleton _) ?_
    intro x hx y hy
    have hy' : newS = y := by simpa using hy
    subst hy'
    rcases List.mem_getLast?_eq_getLast hx with ⟨hne, hx'⟩
    subst hx'
    exact hge hd _ (List.getLast_mem hne)
  next hd => simpa using hOk

theorem tsMonotone_map_stopUpdate (store : List ProcessedSample)
    (d : String) (lp : ProcessedSample) (ts : ℤ)
    (hOk : tsMonotone (byDevice store d)) :
    tsMonotone (byDevice (store.map (applyStopUpdate lp ts)) d) := by
  rw [tsMonotone, byDevice_map store d _ (applyStopUpdate_deviceId lp ts)]
  rw [List.chain'_map]
  refine List.Chain'.imp ?_ hOk
  intro a b hab
  rw [applyStopUpdate_timestamp, applyStopUpdate_timestamp]
  exact hab

theorem stepJob_storeOk (dist : Coord → Coord → ℚ) (s : SysState)
    (j : JobInput) (hs : StoreOk s.store) :
    StoreOk (stepJob dist s j).store := by
  intro d
  cases hl : findLatestProcessed s.store j.raw.deviceId with
  | none =>
      have hempty := findLatest_none _ _ hl
      simp only [stepJob, processTrack, hl]
      apply tsMonotone_append_new _ _ _ (hs d)
      intro hd q hq
      rw [saveProcessedMatrix_deviceId] at hd
      rw [hd] at hempty
      rw [hempty] at hq
      cases hq
  | some lp =>
      simp only [stepJob, processTrack, hl]
      split
      next hneg => exact hs d
      next hneg =>
        have hle : lp.timestamp ≤ j.raw.timestamp := by
          by_contra hgt
          refine hneg (div_neg_of_neg_of_pos ?_ (by norm_num))
          have h2 : j.raw.timestamp - lp.timestamp < 0 := by omega
          exact_mod_cast Int.cast_lt_zero.2 h2
        split
        next hstale =>
          apply tsMonotone_append_new _ _ _ (hs d)
          intro hd q hq
          rw [saveProcessedMatrix_timestamp]
          rw [saveProcessedMatrix_deviceId] at hd
          rw [← hd] at hq
          exact le_trans (findLatest_ge _ _ _ hl q hq) hle
        next hstale =>
          split
          next hstop => exact tsMonotone_map_stopUpdate _ _ _ _ (hs d)
          next hstop =>
            apply tsMonotone_append_new _ _ _ (hs d)
            intro hd q hq
            rw [saveProcessedMatrix_timestamp]
            rw [saveProcessedMatrix_deviceId] at hd
            rw [← hd] at hq
            exact le_trans (findLatest_ge _ _ _ hl q hq) hle

theorem runJobs_storeOk (dist : Coord → Coord → ℚ) (jobs : List JobInput)
    (s : SysState) (hs : StoreOk s.store) :
    StoreOk (runJobs dist s jobs).store := by
  induction jobs generalizing s with
  | nil => exact hs
  | cons j rest ih => exact ih _ (stepJob_storeOk dist s j hs)

/-- C3 (amended): under sequential execution from an empty store, every
device's stream of processed samples, in emitted (insertion) order, has
non-decreasing timestamps.  The claimed 5 m lower bound between the
STORED coordinates of consecutive samples does not hold (see the
counterexample: a stale-gap insert may coincide with its predecessor,
and move inserts store smoothed or matched coordinates, not the raw
ones the 5 m stop test measures). -/
theorem claim_C3_timestamps_monotone (dist : Coord → Coord → ℚ)
    (jobs : List JobInput) (device : String) :
    (byDevice (runJobs dist ⟨[], kEmpty⟩ jobs).store device).Chain'
      (fun p q => p.timestamp ≤ q.timestamp) := by
  have h0 : StoreOk ([] : List ProcessedSample) := by
    intro d
    simp [tsMonotone, byDevice]
  exact runJobs_storeOk dist jobs ⟨[], kEmpty⟩ h0 device

/-- C3 counterexample: the full claim — timestamps non-decreasing AND
every two consecutive stored coordinates at least `STOP_THRESHOLD`
apart, for every distance function that vanishes on equal points (as
the haversine does) — is false: a first point followed by the same
coordinates after a 400 s stale gap yields two consecutive processed
samples at identical coordinates, distance 0 < 5. -/
theorem claim_C3_counterexample :
    ¬ ∀ (dist : Coord → Coord → ℚ), (∀ a, dist a a = 0) →
      ∀ (jobs : List JobInput) (device : String),
        (byDevice (runJobs dist ⟨[], kEmpty⟩ jobs).store device).Chain'
          (fun p q => p.timestamp ≤ q.timestamp ∧
            STOP_THRESHOLD_METERS ≤ dist p.coordinates q.coordinates) := by
  intro hclaim
  have hself : ∀ a, gridDist a a = 0 := fun a => by simp [gridDist]
  have h := hclaim gridDist hself fixJobs "D"
  have hlast2 : findLatestProcessed
      [saveProcessedMatrix 0 1 fixRaw0 none id] "D" =
      some (saveProcessedMatrix 0 1 fixRaw0 none id) := rfl
  have hstore : (byDevice (runJobs gridDist ⟨[], kEmpty⟩ fixJobs).store
      "D").map (fun p => (p.deviceId, p.coordinates)) =
      [("D", coordA), ("D", coordA)] := by
    show (byDevice (stepJob gridDist
        (stepJob gridDist ⟨[], kEmpty⟩ ⟨0, 1, fixRaw0, Except.error ()⟩)
        ⟨400000, 2, fixRawStale, Except.error ()⟩).store "D").map
        (fun p => (p.deviceId, p.coordinates)) =
      [("D", coordA), ("D", coordA)]
    rw [show stepJob gridDist ⟨[], kEmpty⟩ ⟨0, 1, fixRaw0, Except.error ()⟩ =
      ⟨[saveProcessedMatrix 0 1 fixRaw0 none id], kEmpty⟩ from rfl]
    simp only [stepJob, processTrack,
      show fixRawStale.deviceId = "D" from rfl, hlast2]
    norm_num [saveProcessedMatrix_deviceId, saveProcessedMatrix_timestamp,
      saveProcessedMatrix_coordinates, fixRawStale, fixRaw0,
      MAX_LAST_LOCATION_AGE_SECONDS, byDevice, List.filter]
  rcases hbd : byDevice (runJobs gridDist ⟨[], kEmpty⟩ fixJobs).store "D"
    with _ | ⟨p, _ | ⟨q, rest⟩⟩
  · rw [hbd] at hstore
    simp at hstore
  · rw [hbd] at hstore
    simp at hstore
  · rw [hbd] at h hstore
    simp only [List.map_cons, List.cons.injEq, Prod.mk.injEq] at hstore
    have hpc : p.coordinates = coordA := hstore.1.2
    have hqc : q.coordinates = coordA := hstore.2.1.2
    rw [List.chain'_cons] at h
    have h5 := h.1.2
    rw [hpc, hqc, hself coordA] at h5
    norm_num [STOP_THRESHOLD_METERS] at h5

end TMS
